import Mathlib

/-!
Shallow embedding of `src/drag-controller.ts` (lit-dragging).

The file models the drag-interaction helper: the `DragController`'s
`#onMouseDown` press handler with its inner `onMouseMove` / `onMouseUp`
closures, the global listener bookkeeping on `window` / `document`, and the
`DraggableDirective` (constructor part-type check and `update` rebinding).

Modelling decisions, kept faithful to the source:
  * Mouse events carry integer client coordinates (`MouseEv`).
  * The caller-supplied `onMove` / `onEnd` callbacks are modelled by their
    identity (a `Nat` id); every invocation of one is recorded, with its
    arguments, in an emitted trace of `CEvent`s.  `onStart` is modelled as a
    function from the event and the data payload to an optional
    `DraggableStartResult`, mirroring `onStart?.(e, this.data)`.
  * The mutable closure variables `startX`, `startY`, `onMove`, `onEnd` of
    `#onMouseDown` are all written for the last time before the handler
    returns, and the browser dispatches events one at a time, so the inner
    closures only ever observe their final values: a press is modelled as
    atomically producing a resolved `Session` record.
  * `window.addEventListener('mousemove', onMouseMove)` etc. register a fresh
    closure per press, so the listener lists never contain duplicates and are
    modelled as lists of session ids in registration order;
    `removeEventListener` removes the matching closure (filter by id).
  * A `contextmenu` event dispatches to the same `onMouseUp` closures that are
    registered on `document`, exactly as in the source.
-/

namespace LitDragging

/-- A mouse event, reduced to the fields the source reads (`clientX`,
`clientY`). -/
structure MouseEv where
  clientX : Int
  clientY : Int
deriving DecidableEq, Repr

/-- The result object `onStart` may return (`DraggableStartResult` in the
source): optional `startX` / `startY` and optional `onMove` / `onEnd`
callbacks, the callbacks modelled by identity. -/
structure DraggableStartResult where
  startX : Option Int
  startY : Option Int
  onMove : Option Nat
  onEnd : Option Nat
deriving DecidableEq, Repr

/-- The caller-supplied configuration (`DraggableOptions` in the source),
minus the `target` element which only decides where the press listener is
attached.  `onMove` / `onEnd` are callback identities; `onStart` returns the
optional override object, mirroring `onStart?.(e, this.data)`. -/
structure DraggableOptions (T : Type) where
  onStart : Option (MouseEv → T → Option DraggableStartResult)
  onMove : Option Nat
  onEnd : Option Nat

/-- The resolved per-press drag session: the final values of the mutable
closure variables of `#onMouseDown` (`clientX`, `clientY`, `startX`,
`startY`, `onMove`, `onEnd`) observed by the `onMouseMove` / `onMouseUp`
closures. -/
structure Session where
  clientX : Int
  clientY : Int
  startX : Int
  startY : Int
  onMove : Option Nat
  onEnd : Option Nat
deriving DecidableEq, Repr

/-- One recorded callback invocation: `onStart e data`,
`onMove deltaX deltaY e data` (tagged with the invoked callback's identity),
or `onEnd e data` (written `stop`; `end` is reserved). -/
inductive CEvent (T : Type) where
  | start (e : MouseEv) (data : T)
  | move (cb : Nat) (deltaX deltaY : Int) (e : MouseEv) (data : T)
  | stop (cb : Nat) (e : MouseEv) (data : T)
deriving DecidableEq, Repr

/-- The data payload argument carried by a recorded callback invocation. -/
def CEvent.payload {T : Type} : CEvent T → T
  | .start _ d => d
  | .move _ _ _ _ d => d
  | .stop _ _ d => d

/-- The state of one `DragController` instance (equally of one
`DraggableDirective` instance in its mouse-handling part): the host's layout
offsets, the configuration, the `data` slot, and the global listener lists.
`moveL` / `upL` / `ctxL` are the `mousemove` / `mouseup` listeners on
`window` and the `contextmenu` listeners on `document` that belong to this
instance, each entry the id of the session whose closure is registered, in
registration order.  `sessions` maps a session id to its resolved record;
`nextId` numbers sessions. -/
structure DragState (T : Type) where
  offsetLeft : Int
  offsetTop : Int
  opts : DraggableOptions T
  data : T
  nextId : Nat
  sessions : List (Nat × Session)
  moveL : List Nat
  upL : List Nat
  ctxL : List Nat

/-- A fresh instance whose press listener is attached (constructor with a
`target`, or a directive after its first `update`): no active session, no
global listeners. -/
def DragState.init {T : Type} (offsetLeft offsetTop : Int)
    (opts : DraggableOptions T) (data : T) : DragState T :=
  ⟨offsetLeft, offsetTop, opts, data, 0, [], [], [], []⟩

/-- External stimuli: a press (`mousedown` on the target), a movement
(`mousemove` on `window`), a release (`mouseup` on `window`), a
`contextmenu` on `document`, or an external reassignment of the instance's
`data` slot. -/
inductive Ev (T : Type) where
  | press (e : MouseEv)
  | move (e : MouseEv)
  | release (e : MouseEv)
  | contextmenu (e : MouseEv)
  | setData (d : T)

namespace DragController

/-- Session resolution performed by `#onMouseDown` (src/drag-controller.ts
lines 45-84): capture the host offsets and press coordinates, destructure
the options, call `onStart?.(e, this.data)`, then
`onMove ??= config?.onMove`, `onEnd ??= config?.onEnd`,
`startX = config?.startX ?? 0`, `startY = config?.startY ?? 0`.
The initial writes of `startX` / `startY` (lines 46-47) are dead stores:
lines 82-83 overwrite them unconditionally before any other event can be
dispatched. -/
def resolveDrag {T : Type} (opts : DraggableOptions T)
    (offsetLeft offsetTop : Int) (e : MouseEv) (data : T) : Session :=
  let startX := offsetLeft
  let startY := offsetTop
  let clientX := e.clientX
  let clientY := e.clientY
  let onMove := opts.onMove
  let onEnd := opts.onEnd
  let config := opts.onStart.bind fun f => f e data
  let onMove := match onMove with
    | some cb => some cb
    | none => config.bind fun c => c.onMove
  let onEnd := match onEnd with
    | some cb => some cb
    | none => config.bind fun c => c.onEnd
  let startX := (config.bind fun c => c.startX).getD 0
  let startY := (config.bind fun c => c.startY).getD 0
  -- the initial `startX` / `startY` bindings are shadowed, as in the source
  ⟨clientX, clientY, startX, startY, onMove, onEnd⟩

/-- The `#onMouseDown` handler: registers the session's `onMouseMove` on
`window mousemove` and its `onMouseUp` on `window mouseup` and
`document contextmenu` (lines 74-77), and calls `onStart?.(e, this.data)`
(line 79).  Registration happens before the `onStart` call in the source;
both complete synchronously inside the handler, before any further event
can be dispatched, so the step is atomic.  Emits the `onStart` invocation
when `onStart` is configured. -/
def onMouseDown {T : Type} (st : DragState T) (e : MouseEv) :
    DragState T × List (CEvent T) :=
  let id := st.nextId
  let s := resolveDrag st.opts st.offsetLeft st.offsetTop e st.data
  let tr : List (CEvent T) := match st.opts.onStart with
    | some _ => [CEvent.start e st.data]
    | none => []
  (⟨st.offsetLeft, st.offsetTop, st.opts, st.data, id + 1,
    st.sessions ++ [(id, s)],
    st.moveL ++ [id], st.upL ++ [id], st.ctxL ++ [id]⟩, tr)

/-- Dispatch of a `mousemove` event on `window`: every registered
`onMouseMove` closure runs in registration order; each computes
`deltaX = e.clientX - clientX + startX`, `deltaY = e.clientY - clientY +
startY` and calls `onMove?.(deltaX, deltaY, e, this.data)` (lines 53-62),
reading the instance's current `data`.  The state is unchanged. -/
def onMouseMove {T : Type} (st : DragState T) (e : MouseEv) :
    DragState T × List (CEvent T) :=
  (st, st.moveL.filterMap fun id =>
    (st.sessions.lookup id).bind fun s =>
      s.onMove.map fun cb =>
        CEvent.move cb (e.clientX - s.clientX + s.startX)
          (e.clientY - s.clientY + s.startY) e st.data)

/-- Dispatch of a `mouseup` on `window` (or a `contextmenu` on `document`)
to the `onMouseUp` closures registered in `ids`: each removes its session's
`onMouseMove` from `window mousemove` and its `onMouseUp` from both
`window mouseup` and `document contextmenu`, then calls
`onEnd?.(e, this.data)` (lines 64-70).  Each closure removes only itself,
so every closure in the dispatched snapshot still runs. -/
def onMouseUp {T : Type} (st : DragState T) (ids : List Nat) (e : MouseEv) :
    DragState T × List (CEvent T) :=
  ids.foldl
    (fun acc id =>
      match acc.1.sessions.lookup id with
      | none => acc
      | some s =>
        let st1 : DragState T :=
          ⟨acc.1.offsetLeft, acc.1.offsetTop, acc.1.opts, acc.1.data,
           acc.1.nextId, acc.1.sessions,
           acc.1.moveL.filter (· != id),
           acc.1.upL.filter (· != id),
           acc.1.ctxL.filter (· != id)⟩
        match s.onEnd with
        | some cb => (st1, acc.2 ++ [CEvent.stop cb e st1.data])
        | none => (st1, acc.2))
    (st, [])

end DragController

/-- One dispatched external event.  `press` runs `#onMouseDown`; `move`
runs the registered `onMouseMove` closures; `release` dispatches to the
`mouseup` listeners on `window` and `contextmenu` to the listeners on
`document` (the same `onMouseUp` closures); `setData` reassigns the
instance's `data` slot. -/
def step {T : Type} (st : DragState T) : Ev T → DragState T × List (CEvent T)
  | .press e => DragController.onMouseDown st e
  | .move e => DragController.onMouseMove st e
  | .release e => DragController.onMouseUp st st.upL e
  | .contextmenu e => DragController.onMouseUp st st.ctxL e
  | .setData d =>
    (⟨st.offsetLeft, st.offsetTop, st.opts, d, st.nextId, st.sessions,
      st.moveL, st.upL, st.ctxL⟩, [])

/-- Run a sequence of external events, concatenating the emitted callback
invocations. -/
def run {T : Type} (st : DragState T) : List (Ev T) → DragState T × List (CEvent T)
  | [] => (st, [])
  | ev :: evs =>
    let p := step st ev
    let q := run p.1 evs
    (q.1, p.2 ++ q.2)

/-- The attachment-point kinds of `lit/directive.js` (`PartType`). -/
inductive PartType where
  | ATTRIBUTE
  | CHILD
  | PROPERTY
  | BOOLEAN_ATTRIBUTE
  | EVENT
  | ELEMENT
deriving DecidableEq, Repr

/-- The part metadata the directive constructor receives. -/
structure PartInfo where
  type : PartType
deriving DecidableEq, Repr

namespace DraggableDirective

/-- The `DraggableDirective` constructor (lines 102-107): throws
`handle() must be used in an element binding` unless the part is an element
binding. -/
def construct (partInfo : PartInfo) : Except String Unit :=
  if partInfo.type = PartType.ELEMENT then Except.ok ()
  else Except.error "handle() must be used in an element binding"

/-- The directive-instance state relevant to `update`: the stored
`controller` and `data` fields (`Option`, standing for the definitely-
assigned-later `!` fields), the currently bound `element` (a node identity,
modelled as `Nat`), and the set of nodes on which this directive's
`#onMouseDown` is currently registered as a `mousedown` listener (DOM
state, kept here to express attach / detach). -/
structure DirectiveState (T : Type) where
  controller : Option Nat
  data : Option T
  element : Option Nat
  pressListeners : List Nat
deriving Repr

/-- A directive instance fresh from construction: nothing bound yet. -/
def DirectiveState.init (T : Type) : DirectiveState T := ⟨none, none, none, []⟩

/-- `addEventListener('mousedown', this.#onMouseDown)` on a node: the DOM
ignores a re-registration of the same listener on the same node. -/
def addListener (l : List Nat) (n : Nat) : List Nat :=
  if n ∈ l then l else l ++ [n]

/-- `DraggableDirective.update` (lines 114-127): store the payload, keep the
first controller (`this.controller ??= controller`), and if the bound node
changed by identity, remove the press listener from the old node and attach
it to the new one. -/
def update {T : Type} (st : DirectiveState T) (controller : Nat)
    (partElement : Nat) (data : T) : DirectiveState T :=
  let st1 : DirectiveState T :=
    ⟨match st.controller with
      | some c => some c
      | none => some controller,
     some data, st.element, st.pressListeners⟩
  if st1.element = some partElement then st1
  else
    let removed := match st1.element with
      | some old => st1.pressListeners.filter (· != old)
      | none => st1.pressListeners
    ⟨st1.controller, st1.data, some partElement, addListener removed partElement⟩

/-- A press on node `n` reaches this directive's `#onMouseDown` (and so can
start a drag) exactly when the listener is registered on `n`. -/
def pressStartsDrag {T : Type} (st : DirectiveState T) (n : Nat) : Prop :=
  n ∈ st.pressListeners

instance {T : Type} (st : DirectiveState T) (n : Nat) :
    Decidable (pressStartsDrag st n) := by
  unfold pressStartsDrag; infer_instance

end DraggableDirective

/-- The state of the instance after a single press from the idle, freshly
attached state. -/
def afterPress {T : Type} (offsetLeft offsetTop : Int) (opts : DraggableOptions T)
    (data : T) (e0 : MouseEv) : DragState T :=
  (run (DragState.init offsetLeft offsetTop opts data) [Ev.press e0]).1

end LitDragging

namespace LitDragging

/-- Helper: on the single-active-session state, each movement event leaves
the state unchanged and emits exactly one `onMove` invocation, and the
release then removes the listener set and emits the `onEnd` invocation —
run over `moves.map Ev.move ++ [Ev.release er]`. -/
theorem run_moves_release {T : Type} (a b : Int) (opts : DraggableOptions T)
    (d : T) (n : Nat) (s : Session) (cb cbe : Nat)
    (hm : s.onMove = some cb) (he : s.onEnd = some cbe)
    (moves : List MouseEv) (er : MouseEv) :
    run (⟨a, b, opts, d, n, [(0, s)], [0], [0], [0]⟩ : DragState T)
        (moves.map Ev.move ++ [Ev.release er])
      = (⟨a, b, opts, d, n, [(0, s)], [], [], []⟩,
         (moves.map fun e => CEvent.move cb (e.clientX - s.clientX + s.startX)
            (e.clientY - s.clientY + s.startY) e d) ++ [CEvent.stop cbe er d]) := by
  rcases s with ⟨cx, cy, sx, sy, om, oe⟩
  cases hm
  cases he
  induction moves with
  | nil => rfl
  | cons e rest ih =>
    have hstep : step
        (⟨a, b, opts, d, n, [(0, ⟨cx, cy, sx, sy, some cb, some cbe⟩)],
          [0], [0], [0]⟩ : DragState T) (Ev.move e)
        = (⟨a, b, opts, d, n, [(0, ⟨cx, cy, sx, sy, some cb, some cbe⟩)],
            [0], [0], [0]⟩,
           [CEvent.move cb (e.clientX - cx + sx) (e.clientY - cy + sy) e d]) := rfl
    simp only [List.map_cons, List.cons_append, run, hstep, List.append_eq, ih]
    simp

/-- Helper: dispatching `mouseup` (or `contextmenu`) to the single
registered `onMouseUp` closure removes all three listener registrations and
emits the session's `onEnd` invocation. -/
theorem onMouseUp_single {T : Type} (a b : Int) (opts : DraggableOptions T)
    (d : T) (n : Nat) (s : Session) (cbe : Nat)
    (he : s.onEnd = some cbe) (e : MouseEv) :
    DragController.onMouseUp
        (⟨a, b, opts, d, n, [(0, s)], [0], [0], [0]⟩ : DragState T) [0] e
      = (⟨a, b, opts, d, n, [(0, s)], [], [], []⟩, [CEvent.stop cbe e d]) := by
  rcases s with ⟨cx, cy, sx, sy, om, oe⟩
  cases he
  rfl

/-- Claim C6: for one press, N movement events and one release, the trace
of callback invocations is exactly `onStart`, then the N `onMove` calls in
input order, then `onEnd`: `onStart` fires exactly once and first, `onMove`
exactly N times, `onEnd` exactly once and last. -/
theorem c6_trace {T : Type} (a b : Int)
    (f : MouseEv → T → Option DraggableStartResult) (cb cbe : Nat) (d : T)
    (e0 er : MouseEv) (moves : List MouseEv) :
    (run (DragState.init a b
        (⟨some f, some cb, some cbe⟩ : DraggableOptions T) d)
        (Ev.press e0 :: (moves.map Ev.move ++ [Ev.release er]))).2
      = CEvent.start e0 d
        :: ((moves.map fun e => CEvent.move cb
              (e.clientX - e0.clientX
                + (DragController.resolveDrag
                    (⟨some f, some cb, some cbe⟩ : DraggableOptions T)
                    a b e0 d).startX)
              (e.clientY - e0.clientY
                + (DragController.resolveDrag
                    (⟨some f, some cb, some cbe⟩ : DraggableOptions T)
                    a b e0 d).startY) e d)
            ++ [CEvent.stop cbe er d]) := by
  have haux := run_moves_release a b
      (⟨some f, some cb, some cbe⟩ : DraggableOptions T) d 1
      (DragController.resolveDrag
        (⟨some f, some cb, some cbe⟩ : DraggableOptions T) a b e0 d)
      cb cbe rfl rfl moves er
  have hpress : step (DragState.init a b
        (⟨some f, some cb, some cbe⟩ : DraggableOptions T) d) (Ev.press e0)
      = (⟨a, b, ⟨some f, some cb, some cbe⟩, d, 1,
          [(0, DragController.resolveDrag
              (⟨some f, some cb, some cbe⟩ : DraggableOptions T) a b e0 d)],
          [0], [0], [0]⟩,
         [CEvent.start e0 d]) := rfl
  have hcx : (DragController.resolveDrag
      (⟨some f, some cb, some cbe⟩ : DraggableOptions T) a b e0 d).clientX
        = e0.clientX := rfl
  have hcy : (DragController.resolveDrag
      (⟨some f, some cb, some cbe⟩ : DraggableOptions T) a b e0 d).clientY
        = e0.clientY := rfl
  simp only [run, hpress, haux, hcx, hcy]
  simp

/-- Claim C7: for an active session, a release and a context-menu event end
the session identically — the same step result — removing all three global
listeners as a matched set, invoking `onEnd` exactly once, and a movement
event arriving afterwards produces no callback invocation. -/
theorem c7_session_end {T : Type} (a b : Int) (opts : DraggableOptions T)
    (d : T) (e0 e em : MouseEv) (cbe : Nat)
    (he : (DragController.resolveDrag opts a b e0 d).onEnd = some cbe) :
    step (afterPress a b opts d e0) (Ev.release e)
      = step (afterPress a b opts d e0) (Ev.contextmenu e)
    ∧ (step (afterPress a b opts d e0) (Ev.release e)).1.moveL = []
    ∧ (step (afterPress a b opts d e0) (Ev.release e)).1.upL = []
    ∧ (step (afterPress a b opts d e0) (Ev.release e)).1.ctxL = []
    ∧ (step (afterPress a b opts d e0) (Ev.release e)).2 = [CEvent.stop cbe e d]
    ∧ (DragController.onMouseMove
        (step (afterPress a b opts d e0) (Ev.release e)).1 em).2 = [] := by
  have hrel : step (afterPress a b opts d e0) (Ev.release e)
      = (⟨a, b, opts, d, 1,
          [(0, DragController.resolveDrag opts a b e0 d)], [], [], []⟩,
         [CEvent.stop cbe e d]) := by
    show DragController.onMouseUp
        (⟨a, b, opts, d, 1, [(0, DragController.resolveDrag opts a b e0 d)],
          [0], [0], [0]⟩ : DragState T) [0] e = _
    exact onMouseUp_single a b opts d 1
      (DragController.resolveDrag opts a b e0 d) cbe he e
  refine ⟨rfl, ?_, ?_, ?_, ?_, ?_⟩ <;> simp only [hrel] <;> rfl

/-- Witness for C7: `onStart` absent, static `onEnd` callback 4, press at
(0, 0), ending event (2, 3), later movement (5, 6). -/
theorem c7_session_end_witness :
    step (afterPress 0 0 (⟨none, some 0, some 4⟩ : DraggableOptions Nat) 0 ⟨0, 0⟩)
        (Ev.release ⟨2, 3⟩)
      = step (afterPress 0 0 (⟨none, some 0, some 4⟩ : DraggableOptions Nat) 0 ⟨0, 0⟩)
        (Ev.contextmenu ⟨2, 3⟩)
    ∧ (step (afterPress 0 0 (⟨none, some 0, some 4⟩ : DraggableOptions Nat) 0 ⟨0, 0⟩)
        (Ev.release ⟨2, 3⟩)).1.moveL = []
    ∧ (step (afterPress 0 0 (⟨none, some 0, some 4⟩ : DraggableOptions Nat) 0 ⟨0, 0⟩)
        (Ev.release ⟨2, 3⟩)).1.upL = []
    ∧ (step (afterPress 0 0 (⟨none, some 0, some 4⟩ : DraggableOptions Nat) 0 ⟨0, 0⟩)
        (Ev.release ⟨2, 3⟩)).1.ctxL = []
    ∧ (step (afterPress 0 0 (⟨none, some 0, some 4⟩ : DraggableOptions Nat) 0 ⟨0, 0⟩)
        (Ev.release ⟨2, 3⟩)).2 = [CEvent.stop 4 ⟨2, 3⟩ 0]
    ∧ (DragController.onMouseMove
        (step (afterPress 0 0 (⟨none, some 0, some 4⟩ : DraggableOptions Nat) 0 ⟨0, 0⟩)
          (Ev.release ⟨2, 3⟩)).1 ⟨5, 6⟩).2 = [] :=
  c7_session_end 0 0 ⟨none, some 0, some 4⟩ 0 ⟨0, 0⟩ ⟨2, 3⟩ ⟨5, 6⟩ 4 rfl

/-- Claim C8: when the directive is re-evaluated against a different DOM
node, the press listener is removed from the old node (a press there no
longer starts a drag) and attached to the new node (a press there starts
one); re-evaluation against the same node changes no listener
registration. -/
theorem c8_rebinding {T : Type} (st : DraggableDirective.DirectiveState T)
    (ctrl o n : Nat) (d : T) (hold : st.element = some o) (hne : o ≠ n) :
    ¬ DraggableDirective.pressStartsDrag
        (DraggableDirective.update st ctrl n d) o
    ∧ DraggableDirective.pressStartsDrag
        (DraggableDirective.update st ctrl n d) n
    ∧ (DraggableDirective.update st ctrl n d).element = some n
    ∧ (DraggableDirective.update st ctrl o d).pressListeners = st.pressListeners
    ∧ (DraggableDirective.update st ctrl o d).element = st.element := by
  have hfilter : ∀ (l : List Nat), o ∉ l.filter (· != o) := by
    intro l hmem
    rcases List.mem_filter.mp hmem with ⟨_, h2⟩
    simp at h2
  have hadd_not : ∀ (l : List Nat),
      o ∉ DraggableDirective.addListener (l.filter (· != o)) n := by
    intro l
    unfold DraggableDirective.addListener
    split
    · exact hfilter l
    · intro hmem
      rcases List.mem_append.mp hmem with h | h
      · exact hfilter l h
      · exact hne (by simpa using h)
  have hadd_mem : ∀ (l : List Nat), n ∈ DraggableDirective.addListener l n := by
    intro l
    unfold DraggableDirective.addListener
    split
    · assumption
    · exact List.mem_append.mpr (Or.inr (by simp))
  refine ⟨?_, ?_, ?_, ?_, ?_⟩
  · show o ∉ (DraggableDirective.update st ctrl n d).pressListeners
    simp only [DraggableDirective.update, hold, Option.some.injEq]
    rw [if_neg hne]
    exact hadd_not st.pressListeners
  · show n ∈ (DraggableDirective.update st ctrl n d).pressListeners
    simp only [DraggableDirective.update, hold, Option.some.injEq]
    rw [if_neg hne]
    exact hadd_mem _
  · simp only [DraggableDirective.update, hold, Option.some.injEq]
    rw [if_neg hne]
  · simp [DraggableDirective.update, hold]
  · simp [DraggableDirective.update, hold]

/-- Witness for C8: a directive bound to node 1 re-evaluated against node 2
detaches from 1 and attaches to 2; re-evaluated against node 1 it changes
nothing. -/
theorem c8_rebinding_witness :
    ¬ DraggableDirective.pressStartsDrag
        (DraggableDirective.update
          (⟨none, none, some 1, [1]⟩ : DraggableDirective.DirectiveState Nat)
          0 2 5) 1
    ∧ DraggableDirective.pressStartsDrag
        (DraggableDirective.update
          (⟨none, none, some 1, [1]⟩ : DraggableDirective.DirectiveState Nat)
          0 2 5) 2
    ∧ (DraggableDirective.update
        (⟨none, none, some 1, [1]⟩ : DraggableDirective.DirectiveState Nat)
        0 2 5).element = some 2
    ∧ (DraggableDirective.update
        (⟨none, none, some 1, [1]⟩ : DraggableDirective.DirectiveState Nat)
        0 1 5).pressListeners = [1]
    ∧ (DraggableDirective.update
        (⟨none, none, some 1, [1]⟩ : DraggableDirective.DirectiveState Nat)
        0 1 5).element = some 1 :=
  c8_rebinding ⟨none, none, some 1, [1]⟩ 0 1 2 5 rfl (by decide)

/-- Claim C10: the payload handed to `onMove` / `onEnd` is the instance's
`data` field read at the moment the callback fires, not the value captured
at press time — after the data slot is reassigned mid-session (as a
directive re-evaluation or an external write does), the session's later
`onMove` / `onEnd` calls receive the new payload, while the earlier
`onStart` call received the old one; and a directive `update` stores the
new payload in that slot. -/
theorem c10_payload {T : Type} (a b : Int)
    (f : MouseEv → T → Option DraggableStartResult) (cb cbe : Nat)
    (d0 d1 : T) (e0 em er : MouseEv) (ctrl n : Nat)
    (dst : DraggableDirective.DirectiveState T) :
    (run (DragState.init a b
        (⟨some f, some cb, some cbe⟩ : DraggableOptions T) d0)
        [Ev.press e0, Ev.setData d1, Ev.move em, Ev.release er]).2
      = [CEvent.start e0 d0,
         CEvent.move cb
           (em.clientX - e0.clientX
             + (DragController.resolveDrag
                 (⟨some f, some cb, some cbe⟩ : DraggableOptions T)
                 a b e0 d0).startX)
           (em.clientY - e0.clientY
             + (DragController.resolveDrag
                 (⟨some f, some cb, some cbe⟩ : DraggableOptions T)
                 a b e0 d0).startY) em d1,
         CEvent.stop cbe er d1]
    ∧ (DraggableDirective.update dst ctrl n d1).data = some d1 := by
  constructor
  · rfl
  · simp only [DraggableDirective.update]
    split <;> rfl

/-- Claim C9: constructing the declarative binding directive at any
attachment point that is not a whole-element binding raises an error
immediately at construction time, and constructing it at an element binding
raises no error. -/
theorem c9_construct (p : PartInfo) :
    (DraggableDirective.construct p = Except.ok () ↔ p.type = PartType.ELEMENT)
    ∧ (DraggableDirective.construct p
         = Except.error "handle() must be used in an element binding"
       ↔ p.type ≠ PartType.ELEMENT) := by
  rcases p with ⟨t⟩
  cases t <;> simp [DraggableDirective.construct]

/-- Claim C4: when `onStart` is absent or returns no result object
(`onStart?.(e, data)` resolves to nothing), the session's `startX` and
`startY` are 0 — not the element's offset — and every movement event's
deltas are computed from 0, i.e. they equal the raw pointer displacement. -/
theorem c4_zero_default {T : Type} (a b : Int) (opts : DraggableOptions T)
    (e0 em : MouseEv) (d : T)
    (h : (opts.onStart.bind fun f => f e0 d) = none) :
    (DragController.resolveDrag opts a b e0 d).startX = 0
    ∧ (DragController.resolveDrag opts a b e0 d).startY = 0
    ∧ (DragController.onMouseMove (afterPress a b opts d e0) em).2
      = (match opts.onMove with
         | some cb => [CEvent.move cb (em.clientX - e0.clientX)
             (em.clientY - e0.clientY) em d]
         | none => []) := by
  refine ⟨by simp [DragController.resolveDrag, h], by simp [DragController.resolveDrag, h], ?_⟩
  show (DragController.onMouseMove
      (⟨a, b, opts, d, 1, [(0, DragController.resolveDrag opts a b e0 d)],
        [0], [0], [0]⟩ : DragState T) em).2 = _
  simp only [DragController.onMouseMove, DragController.resolveDrag, h,
    List.filterMap, List.lookup, Option.bind_none]
  cases hm : opts.onMove <;> simp [hm, Option.bind]

/-- Witness for C4 at offsets (5, 7), `onStart` absent, static `onMove`
callback 3, press (1, 2), move (10, 12): start is (0, 0) and the move
delta is (9, 10). -/
theorem c4_zero_default_witness :
    (DragController.resolveDrag (⟨none, some 3, none⟩ : DraggableOptions Nat)
        5 7 ⟨1, 2⟩ 0).startX = 0
    ∧ (DragController.resolveDrag (⟨none, some 3, none⟩ : DraggableOptions Nat)
        5 7 ⟨1, 2⟩ 0).startY = 0
    ∧ (DragController.onMouseMove
        (afterPress 5 7 (⟨none, some 3, none⟩ : DraggableOptions Nat) 0 ⟨1, 2⟩)
        ⟨10, 12⟩).2
      = [CEvent.move 3 9 10 ⟨10, 12⟩ 0] :=
  c4_zero_default 5 7 ⟨none, some 3, none⟩ ⟨1, 2⟩ ⟨10, 12⟩ 0 rfl

/-- Claim C5: for a movement event during an active session with press
coordinates (px, py), movement coordinates (mx, my) and resolved starting
offset (sx, sy), `onMove` receives `deltaX = mx - px + sx` and
`deltaY = my - py + sy`; in particular press=(100,100), start=(50,50),
move=(120,130) yields delta=(70,80). -/
theorem c5_delta {T : Type} (a b px py mx my sx sy : Int) (cb : Nat)
    (oe : Option Nat) (d : T) :
    (run (DragState.init a b
        (⟨some (fun _ _ => some ⟨some sx, some sy, none, none⟩), some cb, oe⟩ :
          DraggableOptions T) d)
        [Ev.press ⟨px, py⟩, Ev.move ⟨mx, my⟩]).2
      = [CEvent.start ⟨px, py⟩ d,
         CEvent.move cb (mx - px + sx) (my - py + sy) ⟨mx, my⟩ d]
    ∧ (run (DragState.init 0 0
        (⟨some (fun _ _ => some ⟨some 50, some 50, none, none⟩), some 0, none⟩ :
          DraggableOptions Nat) 0)
        [Ev.press ⟨100, 100⟩, Ev.move ⟨120, 130⟩]).2
      = [CEvent.start ⟨100, 100⟩ 0, CEvent.move 0 70 80 ⟨120, 130⟩ 0] := by
  exact ⟨rfl, by decide⟩

/-- Counterexample to claim C3: with the element's offset (5, 7), `onStart`
absent, press at (0, 0) and a move to (10, 10), the session's start
position is (0, 0) — not the captured offset (5, 7) — and the emitted delta
is (10, 10), not the (15, 17) the claim predicts. -/
theorem c3_counterexample :
    (DragController.resolveDrag (⟨none, some 0, none⟩ : DraggableOptions Nat)
        5 7 ⟨0, 0⟩ 0).startX = 0
    ∧ (DragController.resolveDrag (⟨none, some 0, none⟩ : DraggableOptions Nat)
        5 7 ⟨0, 0⟩ 0).startY = 0
    ∧ (0 : Int) ≠ 5 ∧ (0 : Int) ≠ 7
    ∧ (run (DragState.init 5 7 (⟨none, some 0, none⟩ : DraggableOptions Nat) 0)
        [Ev.press ⟨0, 0⟩, Ev.move ⟨10, 10⟩]).2
      = [CEvent.move 0 10 10 ⟨10, 10⟩ 0]
    ∧ (run (DragState.init 5 7 (⟨none, some 0, none⟩ : DraggableOptions Nat) 0)
        [Ev.press ⟨0, 0⟩, Ev.move ⟨10, 10⟩]).2
      ≠ [CEvent.move 0 15 17 ⟨10, 10⟩ 0] := by
  decide

/-- Claim C3 as amended: `#onMouseDown` captures the element's offset into
`startX` / `startY` at press time but overwrites both with
`config?.startX ?? 0` / `config?.startY ?? 0` before any movement event can
be dispatched, so the offsets never influence the resolved session; when
`onStart` is absent or returns no result the starting position used in
every delta computation is (0, 0). -/
theorem c3_amended {T : Type} (a b a' b' : Int) (opts : DraggableOptions T)
    (e : MouseEv) (d : T)
    (h : (opts.onStart.bind fun f => f e d) = none) :
    DragController.resolveDrag opts a b e d = DragController.resolveDrag opts a' b' e d
    ∧ (DragController.resolveDrag opts a b e d).startX = 0
    ∧ (DragController.resolveDrag opts a b e d).startY = 0 :=
  ⟨rfl, by simp [DragController.resolveDrag, h], by simp [DragController.resolveDrag, h]⟩

/-- Witness for the amended C3: offsets (5, 7) and (0, 0) resolve the same
session, whose start position is (0, 0). -/
theorem c3_amended_witness :
    DragController.resolveDrag (⟨none, some 0, none⟩ : DraggableOptions Nat)
        5 7 ⟨1, 1⟩ 0
      = DragController.resolveDrag (⟨none, some 0, none⟩ : DraggableOptions Nat)
        0 0 ⟨1, 1⟩ 0
    ∧ (DragController.resolveDrag (⟨none, some 0, none⟩ : DraggableOptions Nat)
        5 7 ⟨1, 1⟩ 0).startX = 0
    ∧ (DragController.resolveDrag (⟨none, some 0, none⟩ : DraggableOptions Nat)
        5 7 ⟨1, 1⟩ 0).startY = 0 :=
  c3_amended 5 7 0 0 ⟨none, some 0, none⟩ ⟨1, 1⟩ 0 rfl

/-- Counterexample to claim C1: with a statically configured `onMove` /
`onEnd` (identity 0) and an `onStart` returning an override object carrying
`onMove` / `onEnd` identity 1, the session's move and end phases invoke
callback 0 — the statically configured one — not the one returned by
`onStart`, because `onMove ??= config?.onMove` keeps a non-nullish static
callback. -/
theorem c1_counterexample :
    (run (DragState.init 0 0
        (⟨some (fun _ _ => some ⟨none, none, some 1, some 1⟩), some 0, some 0⟩ :
          DraggableOptions Nat) 0)
        [Ev.press ⟨0, 0⟩, Ev.move ⟨3, 4⟩, Ev.release ⟨3, 4⟩]).2
      = [CEvent.start ⟨0, 0⟩ 0, CEvent.move 0 3 4 ⟨3, 4⟩ 0,
         CEvent.stop 0 ⟨3, 4⟩ 0]
    ∧ (0 : Nat) ≠ 1 := by
  decide

/-- Claim C1 as amended: `onStart`'s returned `onMove` / `onEnd` are used
only as fallbacks — the nullish assignment `onMove ??= config?.onMove`
keeps the statically configured callback when one exists, and the returned
one is invoked only when the static configuration supplies none. -/
theorem c1_amended {T : Type} (opts : DraggableOptions T) (a b : Int)
    (e : MouseEv) (d : T) :
    ((DragController.resolveDrag opts a b e d).onMove
       = match opts.onMove with
         | some cb => some cb
         | none => (opts.onStart.bind fun f => f e d).bind fun c => c.onMove)
    ∧ ((DragController.resolveDrag opts a b e d).onEnd
       = match opts.onEnd with
         | some cb => some cb
         | none => (opts.onStart.bind fun f => f e d).bind fun c => c.onEnd)
    ∧ (run (DragState.init 0 0
        (⟨some (fun _ _ => some ⟨none, none, some 9, some 9⟩), some 7, some 7⟩ :
          DraggableOptions Nat) 0)
        [Ev.press ⟨0, 0⟩, Ev.move ⟨1, 1⟩, Ev.release ⟨1, 1⟩]).2
      = [CEvent.start ⟨0, 0⟩ 0, CEvent.move 7 1 1 ⟨1, 1⟩ 0,
         CEvent.stop 7 ⟨1, 1⟩ 0] :=
  ⟨rfl, rfl, by decide⟩

/-- Counterexample to claim C2: a second press while a session is active
registers a second set of global listeners and a second session — after two
presses each listener list has two entries, not one. -/
theorem c2_counterexample :
    ((run (DragState.init 0 0 (⟨none, some 0, some 0⟩ : DraggableOptions Nat) 0)
        [Ev.press ⟨0, 0⟩, Ev.press ⟨1, 1⟩]).1).moveL.length = 2
    ∧ ((run (DragState.init 0 0 (⟨none, some 0, some 0⟩ : DraggableOptions Nat) 0)
        [Ev.press ⟨0, 0⟩, Ev.press ⟨1, 1⟩]).1).upL.length = 2
    ∧ ((run (DragState.init 0 0 (⟨none, some 0, some 0⟩ : DraggableOptions Nat) 0)
        [Ev.press ⟨0, 0⟩, Ev.press ⟨1, 1⟩]).1).ctxL.length = 2
    ∧ ((run (DragState.init 0 0 (⟨none, some 0, some 0⟩ : DraggableOptions Nat) 0)
        [Ev.press ⟨0, 0⟩, Ev.press ⟨1, 1⟩]).1).sessions.length = 2
    ∧ (2 : Nat) ≠ 1 := by
  decide

/-- Claim C2 as amended: nothing prevents overlapping sessions — every
press, including one arriving while a session is already active,
unconditionally starts a new session and registers a fresh
movement / release / context-menu listener set (each list grows by one). -/
theorem c2_amended {T : Type} (st : DragState T) (e : MouseEv) :
    (DragController.onMouseDown st e).1.moveL.length = st.moveL.length + 1
    ∧ (DragController.onMouseDown st e).1.upL.length = st.upL.length + 1
    ∧ (DragController.onMouseDown st e).1.ctxL.length = st.ctxL.length + 1
    ∧ (DragController.onMouseDown st e).1.sessions.length = st.sessions.length + 1 := by
  simp [DragController.onMouseDown]

end LitDragging
